import Mathlib

/-!
Verification of `docker/launch_rosbridge.launch.py`.

The source is a declarative ROS 2 launch description: it declares one
overridable argument (`port`, default "9090") and two node process
descriptors (the rosbridge WebSocket server and the rosapi node).  We embed
the data model (argument declarations, node descriptors, launch entities),
transcribe the literal configuration from the source, and model the external
launch runtime's argument-resolution step so that properties about resolved
parameter values can be stated.
-/

namespace RosbridgeLaunch

/-- A parameter value as it appears in a node's parameter dictionary.
String, boolean, integer and float literals appear directly in the source;
`launchConfiguration n` embeds `LaunchConfiguration(n)`, a deferred
substitution resolved later by the launch runtime.  The float literal `5.0`
is exactly representable, and no arithmetic is ever performed on it, so it
is embedded as the rational number 5. -/
inductive ParamValue where
  | str : String → ParamValue
  | bool : Bool → ParamValue
  | int : Int → ParamValue
  | float : ℚ → ParamValue
  | launchConfiguration : String → ParamValue
deriving DecidableEq

/-- Embedding of `DeclareLaunchArgument`: a named overridable argument with a
default value and a human-readable description. -/
structure DeclareLaunchArgument where
  name : String
  default_value : String
  description : String
deriving DecidableEq

/-- Embedding of `launch_ros.actions.Node`: the declarative record describing
how to start one external executable (the spec's ProcessSpec). -/
structure Node where
  package : String
  executable : String
  name : String
  output : String
  parameters : List (String × ParamValue)
deriving DecidableEq

/-- An entity of a launch description: either an argument declaration or a
node descriptor. -/
inductive LaunchEntity where
  | arg : DeclareLaunchArgument → LaunchEntity
  | node : Node → LaunchEntity
deriving DecidableEq

/-- Embedding of `launch.LaunchDescription`: an ordered list of entities. -/
structure LaunchDescription where
  entities : List LaunchEntity
deriving DecidableEq

/-- The `port` argument declaration from the source: name `"port"`, default
value `"9090"`, description `"Port for rosbridge websocket server"`. -/
def port_arg : DeclareLaunchArgument :=
  { name := "port"
    default_value := "9090"
    description := "Port for rosbridge websocket server" }

/-- The rosbridge WebSocket node descriptor from the source, with its
parameter dictionary transcribed literally. -/
def rosbridge_node : Node :=
  { package := "rosbridge_server"
    executable := "rosbridge_websocket"
    name := "rosbridge_websocket"
    output := "screen"
    parameters :=
      [ ("port", ParamValue.launchConfiguration "port")
      , ("address", ParamValue.str "0.0.0.0")
      , ("use_compression", ParamValue.bool false)
      , ("max_message_size", ParamValue.int 10000000)
      , ("send_action_goals_in_new_thread", ParamValue.bool true)
      , ("call_services_in_new_thread", ParamValue.bool true)
      , ("default_call_service_timeout", ParamValue.float 5) ] }

/-- The rosapi node descriptor from the source: no `parameters` keyword is
passed, so its parameter dictionary is empty. -/
def rosapi_node : Node :=
  { package := "rosapi"
    executable := "rosapi_node"
    name := "rosapi"
    output := "screen"
    parameters := [] }

/-- Embedding of `generate_launch_description`: each call constructs the
argument declaration and the two node descriptors and returns them in a
`LaunchDescription` in that order.  The `Unit` input models one call of the
Python function (each call builds structurally identical fresh objects). -/
def generate_launch_description (_call : Unit) : LaunchDescription :=
  { entities :=
      [ LaunchEntity.arg port_arg
      , LaunchEntity.node rosbridge_node
      , LaunchEntity.node rosapi_node ] }

/-- The argument declarations contained in a list of launch entities. -/
def declaredArguments (es : List LaunchEntity) : List DeclareLaunchArgument :=
  es.filterMap fun e =>
    match e with
    | LaunchEntity.arg a => some a
    | LaunchEntity.node _ => none

/-- Modelled from the spec: the external launch runtime's argument-resolution
mechanism (not part of this repository).  An argument named `n` resolves to
the override supplied at invocation when one is present, and otherwise to the
default value of the matching declaration; resolution fails when neither
exists. -/
def resolveArg (decls : List DeclareLaunchArgument)
    (overrides : List (String × String)) (n : String) : Option String :=
  match (overrides.find? fun p => p.1 == n).map Prod.snd with
  | some v => some v
  | none => (decls.find? fun d => d.name == n).map fun d => d.default_value

/-- Modelled from the spec: resolving one parameter value.  Literal values
pass through unchanged; a deferred `launchConfiguration` substitution is
replaced by the resolved string of the named argument. -/
def resolveParamValue (decls : List DeclareLaunchArgument)
    (overrides : List (String × String)) : ParamValue → Option ParamValue
  | ParamValue.launchConfiguration n =>
      (resolveArg decls overrides n).map ParamValue.str
  | v => some v

/-- Modelled from the spec: resolving a parameter dictionary entry by entry,
failing as soon as one entry fails. -/
def resolveParams (decls : List DeclareLaunchArgument)
    (overrides : List (String × String)) :
    List (String × ParamValue) → Option (List (String × ParamValue))
  | [] => some []
  | p :: ps =>
    match resolveParamValue decls overrides p.2,
        resolveParams decls overrides ps with
    | some v, some rest => some ((p.1, v) :: rest)
    | _, _ => none

/-- Modelled from the spec: resolving a node descriptor replaces its
parameter dictionary by the resolved one and leaves the identity fields
untouched. -/
def resolveNode (decls : List DeclareLaunchArgument)
    (overrides : List (String × String)) (nd : Node) : Option Node :=
  (resolveParams decls overrides nd.parameters).map fun ps =>
    { nd with parameters := ps }

/-- Modelled from the spec: resolving one launch entity.  Argument
declarations are left as they are; node descriptors have their parameters
resolved. -/
def resolveEntity (decls : List DeclareLaunchArgument)
    (overrides : List (String × String)) : LaunchEntity → Option LaunchEntity
  | LaunchEntity.arg a => some (LaunchEntity.arg a)
  | LaunchEntity.node nd =>
      (resolveNode decls overrides nd).map LaunchEntity.node

/-- Modelled from the spec: resolving a list of launch entities in order. -/
def resolveEntities (decls : List DeclareLaunchArgument)
    (overrides : List (String × String)) :
    List LaunchEntity → Option (List LaunchEntity)
  | [] => some []
  | e :: es =>
    match resolveEntity decls overrides e,
        resolveEntities decls overrides es with
    | some e2, some es2 => some (e2 :: es2)
    | _, _ => none

/-- Modelled from the spec: the launch runtime resolves every entity of the
description against the arguments the description itself declares and the
overrides supplied at invocation. -/
def resolveLaunchDescription (overrides : List (String × String))
    (ld : LaunchDescription) : Option (List LaunchEntity) :=
  resolveEntities (declaredArguments ld.entities) overrides ld.entities

/-- The string the `port` argument resolves to under the given overrides:
the supplied override when present, the declared default `"9090"`
otherwise. -/
def portResolved (overrides : List (String × String)) : String :=
  ((overrides.find? fun p => p.1 == "port").map Prod.snd).getD "9090"

/-- The first node descriptor of the given entity list whose package matches
`pkg`, when one exists. -/
def nodeOfPackage (pkg : String) (es : List LaunchEntity) : Option Node :=
  es.findSome? fun e =>
    match e with
    | LaunchEntity.node nd => if nd.package == pkg then some nd else none
    | LaunchEntity.arg _ => none

/-- The value stored under `key` in a node's parameter dictionary. -/
def paramOf (nd : Node) (key : String) : Option ParamValue :=
  (nd.parameters.find? fun p => p.1 == key).map Prod.snd

/-- Whether a launch entity is an argument declaration. -/
def isArgEntity : LaunchEntity → Bool
  | LaunchEntity.arg _ => true
  | LaunchEntity.node _ => false

/-- Whether a launch entity is a node descriptor. -/
def isNodeEntity : LaunchEntity → Bool
  | LaunchEntity.arg _ => false
  | LaunchEntity.node _ => true

/-- Closed form of resolution for the description this file builds: for any
overrides, resolution succeeds and yields the argument declaration, the
bridge node with its port parameter replaced by the resolved string and all
other parameters unchanged, and the rosapi node unchanged. -/
theorem resolve_gld (o : List (String × String)) :
    resolveLaunchDescription o (generate_launch_description ()) =
      some
        [ LaunchEntity.arg port_arg
        , LaunchEntity.node
            { package := "rosbridge_server"
              executable := "rosbridge_websocket"
              name := "rosbridge_websocket"
              output := "screen"
              parameters :=
                [ ("port", ParamValue.str (portResolved o))
                , ("address", ParamValue.str "0.0.0.0")
                , ("use_compression", ParamValue.bool false)
                , ("max_message_size", ParamValue.int 10000000)
                , ("send_action_goals_in_new_thread", ParamValue.bool true)
                , ("call_services_in_new_thread", ParamValue.bool true)
                , ("default_call_service_timeout", ParamValue.float 5) ] }
        , LaunchEntity.node rosapi_node ] := by
  cases hf : o.find? fun p => p.1 == "port" <;>
    simp [resolveLaunchDescription, generate_launch_description,
      declaredArguments, resolveEntities, resolveEntity, resolveNode,
      resolveParams, resolveParamValue, resolveArg, portResolved, hf,
      port_arg, rosbridge_node, rosapi_node]

/-- Claim C1: building the configuration with no argument override yields a
bridge node whose `port` parameter resolves to the string `"9090"`, the
declared default of the one argument. -/
theorem claim_C1_default_port :
    (resolveLaunchDescription [] (generate_launch_description ())).bind
        (fun es => (nodeOfPackage "rosbridge_server" es).bind
          fun nd => paramOf nd "port") =
      some (ParamValue.str "9090") := by
  decide

/-- Claim C2: for every override value `v` supplied for the `port` argument,
resolution yields exactly the argument declaration, the bridge node whose
`port` parameter is the string `v` and whose six other parameters keep their
fixed literal values, and the unchanged rosapi node: the port is the only
field of the whole configuration that varies with the override. -/
theorem claim_C2_override_frame (v : String) :
    resolveLaunchDescription [("port", v)] (generate_launch_description ()) =
      some
        [ LaunchEntity.arg port_arg
        , LaunchEntity.node
            { package := "rosbridge_server"
              executable := "rosbridge_websocket"
              name := "rosbridge_websocket"
              output := "screen"
              parameters :=
                [ ("port", ParamValue.str v)
                , ("address", ParamValue.str "0.0.0.0")
                , ("use_compression", ParamValue.bool false)
                , ("max_message_size", ParamValue.int 10000000)
                , ("send_action_goals_in_new_thread", ParamValue.bool true)
                , ("call_services_in_new_thread", ParamValue.bool true)
                , ("default_call_service_timeout", ParamValue.float 5) ] }
        , LaunchEntity.node rosapi_node ] := by
  rw [resolve_gld]
  rfl

/-- Claim C3: the assembler returns exactly three entities — one argument
declaration and two node descriptors — in the fixed order
[port argument, bridge node, rosapi node], so the argument is declared
before the node that references it. -/
theorem claim_C3_shape :
    (generate_launch_description ()).entities.length = 3 ∧
    ((generate_launch_description ()).entities.countP isArgEntity = 1) ∧
    ((generate_launch_description ()).entities.countP isNodeEntity = 2) ∧
    (generate_launch_description ()).entities =
      [ LaunchEntity.arg port_arg
      , LaunchEntity.node rosbridge_node
      , LaunchEntity.node rosapi_node ] := by
  decide

/-- Claim C4: the bridge node's parameter dictionary holds exactly the keys
port, address, use_compression, max_message_size,
send_action_goals_in_new_thread, call_services_in_new_thread and
default_call_service_timeout, in that order, and the six fixed parameters
carry exactly the tabulated literal values. -/
theorem claim_C4_bridge_params :
    nodeOfPackage "rosbridge_server"
        (generate_launch_description ()).entities = some rosbridge_node ∧
    rosbridge_node.parameters.map Prod.fst =
      [ "port", "address", "use_compression", "max_message_size"
      , "send_action_goals_in_new_thread", "call_services_in_new_thread"
      , "default_call_service_timeout" ] ∧
    paramOf rosbridge_node "address" = some (ParamValue.str "0.0.0.0") ∧
    paramOf rosbridge_node "use_compression" = some (ParamValue.bool false) ∧
    paramOf rosbridge_node "max_message_size" =
      some (ParamValue.int 10000000) ∧
    paramOf rosbridge_node "send_action_goals_in_new_thread" =
      some (ParamValue.bool true) ∧
    paramOf rosbridge_node "call_services_in_new_thread" =
      some (ParamValue.bool true) ∧
    paramOf rosbridge_node "default_call_service_timeout" =
      some (ParamValue.float 5) := by
  decide

/-- Claim C5: for every override list, the resolved configuration contains
the rosapi node with an empty parameter dictionary: the API node carries no
`port` parameter and no parameter at all, only identity fields. -/
theorem claim_C5_rosapi_no_params (o : List (String × String)) :
    (resolveLaunchDescription o (generate_launch_description ())).bind
        (nodeOfPackage "rosapi") = some rosapi_node ∧
    rosapi_node.parameters = [] := by
  rw [resolve_gld]
  exact ⟨rfl, rfl⟩

/-- Claim C6: the bridge node has package `rosbridge_server` and executable
`rosbridge_websocket`, the API node has package `rosapi` and executable
`rosapi_node`, and both direct their output to `screen`. -/
theorem claim_C6_identity_fields :
    (generate_launch_description ()).entities =
      [ LaunchEntity.arg port_arg
      , LaunchEntity.node rosbridge_node
      , LaunchEntity.node rosapi_node ] ∧
    rosbridge_node.package = "rosbridge_server" ∧
    rosbridge_node.executable = "rosbridge_websocket" ∧
    rosapi_node.package = "rosapi" ∧
    rosapi_node.executable = "rosapi_node" ∧
    rosbridge_node.output = "screen" ∧
    rosapi_node.output = "screen" := by
  decide

/-- Claim C7: the assembler is deterministic: any two calls, resolved under
the same overrides, produce structurally identical (deep-equal) results.
Side-effect-freedom is captured by the embedding itself: the function reads
nothing beyond its own literals. -/
theorem claim_C7_deterministic (c1 c2 : Unit)
    (o : List (String × String)) :
    resolveLaunchDescription o (generate_launch_description c1) =
      resolveLaunchDescription o (generate_launch_description c2) := by
  rfl

/-- Claim C8: the assembler never fails: for every override list — in
particular for any string supplied for `port`, however malformed as a port
number — construction and resolution succeed and return a configuration,
with no validation of the port value. -/
theorem claim_C8_total (o : List (String × String)) :
    (resolveLaunchDescription o (generate_launch_description ())).isSome =
      true := by
  rw [resolve_gld]
  rfl

/-- Claim C9: the bridge node's display name is `rosbridge_websocket`,
identical to its executable name, while the API node's display name is
`rosapi`, which differs from its executable name `rosapi_node`. -/
theorem claim_C9_display_names :
    nodeOfPackage "rosbridge_server"
        (generate_launch_description ()).entities = some rosbridge_node ∧
    nodeOfPackage "rosapi"
        (generate_launch_description ()).entities = some rosapi_node ∧
    rosbridge_node.name = "rosbridge_websocket" ∧
    rosbridge_node.name = rosbridge_node.executable ∧
    rosapi_node.name = "rosapi" ∧
    rosapi_node.executable = "rosapi_node" ∧
    rosapi_node.name ≠ rosapi_node.executable := by
  decide

/-- Claim C10: the declared `port` argument carries the description string
`"Port for rosbridge websocket server"`. -/
theorem claim_C10_arg_description :
    declaredArguments (generate_launch_description ()).entities =
      [port_arg] ∧
    port_arg.description = "Port for rosbridge websocket server" := by
  decide

end RosbridgeLaunch
